import Mathlib

/-!
Verification development for the Monkee frontend (`src/static/app.js`,
the version with the `isGenerating` flag, which is the one the spec's
line references point at).

The application is single-threaded and event-driven: UI event handlers
and asynchronous continuations never run concurrently.  We embed the
observable DOM/JS state touched by the handlers as the structure
`AppState`, each handler as a pure state transformer translated
statement-by-statement from the source, and a user/IO event alphabet
`Event` with `stepEvent` as the small-step semantics.  The asynchronous
`handleGenerate` is split at its single suspension point (the `fetch`
plus `response.json()` await) into `handleGenerateStart` (the code up to
and including issuing the request) and `handleGenerateResolve` (the
continuation that runs when the request settles, parameterised by the
outcome `FetchOutcome`).  The number of generation requests issued but
not yet settled is tracked in `pendingRequests`.

Handlers of `app.js` that touch none of the fields the claims are about
(download, share, the fullscreen modal, the suggested-prompts toggle,
`checkApiHealth`) are not part of the event alphabet; none of them
writes `uploadedFiles`, `isGenerating`, `promptValue`,
`generateBtnDisabled` or `pendingRequests`.
-/

/-- An uploaded file: an opaque in-memory blob.  Only identity matters
for the state-management logic, so we record a name and a MIME type. -/
structure JFile where
  name : String
  mime : String
deriving DecidableEq, Repr

/-- The observable state of the page that the handlers in `app.js` read
and write: the module-level variables (`uploadedFiles`, `isGenerating`),
the DOM element properties the handlers touch, and the count
`pendingRequests` of generation requests issued and not yet settled. -/
structure AppState where
  uploadedFiles : List JFile
  isGenerating : Bool
  promptValue : String
  aspectRatioValue : String
  charCount : String
  generateBtnDisabled : Bool
  btnTextHidden : Bool
  btnLoaderHidden : Bool
  resultSectionHidden : Bool
  resultImageSrc : String
  errorMessageHidden : Bool
  errorText : String
  pendingRequests : Nat
deriving DecidableEq, Repr

/-- Source constant: `const MAX_FILES = 14;`. -/
def MAX_FILES : Nat := 14

/-- JavaScript `String.prototype.trim()`: the string with leading and
trailing whitespace removed. -/
def jsTrim (s : String) : String :=
  String.mk (((s.data.dropWhile Char.isWhitespace).reverse.dropWhile Char.isWhitespace).reverse)

/-- JS `showError(message)`: sets the error text and unhides the error
surface (the scheduled `scrollIntoView` has no modelled effect). -/
def showError (s : AppState) (message : String) : AppState :=
  { s with errorText := message, errorMessageHidden := false }

/-- JS `hideError()`: hides the error surface and clears its text. -/
def hideError (s : AppState) : AppState :=
  { s with errorMessageHidden := true, errorText := "" }

/-- JS `updateGenerateButton()`: the trigger control is disabled unless the
trimmed prompt is non-empty and no generation is marked in progress. -/
def updateGenerateButton (s : AppState) : AppState :=
  let hasPrompt : Bool := decide (0 < (jsTrim s.promptValue).length)
  { s with generateBtnDisabled := !hasPrompt || s.isGenerating }

/-- JS `addFiles(files)`: takes the first `MAX_FILES - uploadedFiles.length`
input files, shows a capacity notice when the input is longer than that,
appends the taken files, then runs `updateGenerateButton()` and —
unconditionally — `hideError()`. -/
def addFiles (s : AppState) (files : List JFile) : AppState :=
  let remainingSlots := MAX_FILES - s.uploadedFiles.length
  let filesToAdd := files.take remainingSlots
  let s1 :=
    if remainingSlots < files.length then
      showError s ("Maximum " ++ toString MAX_FILES ++ " images allowed. Only "
        ++ toString remainingSlots ++ " more can be added.")
    else s
  let s2 := { s1 with uploadedFiles := s1.uploadedFiles ++ filesToAdd }
  hideError (updateGenerateButton s2)

/-- JS `removeFile(index)`: `uploadedFiles.splice(index, 1)` followed by the
full grid rebuild and `updateGenerateButton()`. -/
def removeFile (s : AppState) (index : Nat) : AppState :=
  updateGenerateButton { s with uploadedFiles := s.uploadedFiles.eraseIdx index }

/-- JS `handlePromptInput()` after the prompt control's value became `v`:
updates the character counter, re-evaluates the trigger control, hides
any error. -/
def handlePromptInput (s : AppState) (v : String) : AppState :=
  let s1 := { s with promptValue := v, charCount := toString v.length }
  hideError (updateGenerateButton s1)

/-- JS `setLoading(loading)`: swaps the button label for the loader and
disables the button while loading; on leaving the loading state restores
the label and re-evaluates the button via `updateGenerateButton()`. -/
def setLoading (s : AppState) (loading : Bool) : AppState :=
  if loading then
    { s with generateBtnDisabled := true, btnTextHidden := true, btnLoaderHidden := false }
  else
    updateGenerateButton { s with btnTextHidden := false, btnLoaderHidden := true }

/-- The synchronous prefix of `handleGenerate()`: the empty-prompt
validation (which runs FIRST), then the `isGenerating` re-entrancy
guard, then entering the loading state and issuing the request. -/
def handleGenerateStart (s : AppState) : AppState :=
  let prompt := jsTrim s.promptValue
  if prompt = "" then
    showError s "Please enter a prompt to generate an image."
  else if s.isGenerating then
    s
  else
    let s1 := { s with isGenerating := true }
    let s2 := setLoading s1 true
    let s3 := hideError s2
    let s4 := { s3 with resultSectionHidden := true }
    { s4 with pendingRequests := s4.pendingRequests + 1 }

/-- The settled outcome of one generation request as seen by the
continuation of `handleGenerate()`: either a parsed HTTP response
(`ok` is `response.ok`, the other fields are the JSON body's `success`,
`image` and `detail` members, `none` when absent), or a rejection of
`fetch` / `response.json()` carrying the thrown error's message. -/
inductive FetchOutcome where
  | response (ok : Bool) (success : Bool) (image : Option String) (detail : Option String)
  | networkError (message : String)
deriving DecidableEq, Repr

/-- JavaScript truthiness of an optional string (absent and `""` are
falsy). -/
def jsTruthy (o : Option String) : Bool :=
  match o with
  | none => false
  | some s => s ≠ ""

/-- JavaScript `o || fallback` for an optional string. -/
def jsOrElse (o : Option String) (fallback : String) : String :=
  match o with
  | none => fallback
  | some s => if s = "" then fallback else s

/-- JavaScript `m || fallback` for a string. -/
def jsOr (m fallback : String) : String :=
  if m = "" then fallback else m

/-- The continuation of `handleGenerate()` once its request settles with
outcome `o`: the `!response.ok` throw (message `data.detail || ...`),
the `data.success && data.image` success branch, the
`'No image was generated'` throw, the `catch` showing
`error.message || ...`, and the `finally` that clears `isGenerating` and
leaves the loading state. -/
def handleGenerateResolve (s : AppState) (o : FetchOutcome) : AppState :=
  let s0 := { s with pendingRequests := s.pendingRequests - 1 }
  let s1 :=
    match o with
    | FetchOutcome.networkError m =>
        showError s0 (jsOr m "An error occurred while generating the image.")
    | FetchOutcome.response ok success image detail =>
        if !ok then
          showError s0 (jsOr (jsOrElse detail "Failed to generate image")
            "An error occurred while generating the image.")
        else if success && jsTruthy image then
          { s0 with resultImageSrc := image.getD "", resultSectionHidden := false }
        else
          showError s0 (jsOr "No image was generated"
            "An error occurred while generating the image.")
  setLoading { s1 with isGenerating := false } false

/-- JS `handleNewGeneration()`: clears the attachments, the prompt and the
counter, hides the result and the error, resets `isGenerating`
("just in case"), and re-evaluates the trigger control. -/
def handleNewGeneration (s : AppState) : AppState :=
  let s1 := { s with uploadedFiles := [] }
  let s2 := { s1 with promptValue := "", charCount := "0" }
  let s3 := { s2 with resultSectionHidden := true, resultImageSrc := "" }
  let s4 := hideError s3
  let s5 := { s4 with isGenerating := false }
  updateGenerateButton s5

/-- The user/IO event alphabet.  `promptInput v` is an edit that leaves
the prompt control holding `v` (this also covers picking a suggested
prompt); `aspectChange` is the user changing the ratio select (no JS
listener, the DOM updates the value); `generateResolve o` is the
settling of an outstanding generation request with outcome `o`. -/
inductive Event where
  | promptInput (v : String)
  | aspectChange (v : String)
  | addFilesEvent (files : List JFile)
  | removeFileEvent (index : Nat)
  | generateClick
  | generateResolve (o : FetchOutcome)
  | newGenerationClick
deriving DecidableEq, Repr

/-- Small-step semantics: the effect of one event on the page state.
A `generateResolve` can only settle an actually outstanding request. -/
def stepEvent (s : AppState) : Event → AppState
  | Event.promptInput v => handlePromptInput s v
  | Event.aspectChange v => { s with aspectRatioValue := v }
  | Event.addFilesEvent files => addFiles s files
  | Event.removeFileEvent i => removeFile s i
  | Event.generateClick => handleGenerateStart s
  | Event.generateResolve o =>
      if s.pendingRequests = 0 then s else handleGenerateResolve s o
  | Event.newGenerationClick => handleNewGeneration s

/-- Modelled from the spec: the initial DOM state (the page's
`index.html` is not under `src/`).  Per the spec the session starts — and
resets back to — empty prompt, no attachments, result and error surfaces
hidden, trigger control disabled. -/
def initState : AppState :=
  { uploadedFiles := []
    isGenerating := false
    promptValue := ""
    aspectRatioValue := "1:1"
    charCount := "0"
    generateBtnDisabled := true
    btnTextHidden := false
    btnLoaderHidden := true
    resultSectionHidden := true
    resultImageSrc := ""
    errorMessageHidden := true
    errorText := ""
    pendingRequests := 0 }

/-- Running a finite sequence of events. -/
def runEvents (s : AppState) (es : List Event) : AppState :=
  es.foldl stepEvent s

/-- A state is reachable when some finite event sequence produces it
from the initial page state. -/
def Reachable (s : AppState) : Prop :=
  ∃ es : List Event, runEvents initState es = s

/-! ### The trigger-control invariant (claim C1) -/

/-- The relation `updateGenerateButton` establishes between the trigger
control and the rest of the state: disabled exactly when the trimmed
prompt is empty or a generation is marked in progress. -/
def BtnInv (s : AppState) : Prop :=
  s.generateBtnDisabled = (!(decide (0 < (jsTrim s.promptValue).length)) || s.isGenerating)

lemma btnInv_updateGenerateButton (s : AppState) : BtnInv (updateGenerateButton s) := rfl

lemma btnInv_step (s : AppState) (e : Event) (h : BtnInv s) : BtnInv (stepEvent s e) := by
  cases e with
  | promptInput v => exact btnInv_updateGenerateButton _
  | aspectChange v => exact h
  | addFilesEvent files => exact btnInv_updateGenerateButton _
  | removeFileEvent i => exact btnInv_updateGenerateButton _
  | generateClick =>
      show BtnInv (handleGenerateStart s)
      simp only [handleGenerateStart]
      split
      · exact h
      · split
        · exact h
        · show (true : Bool) = (!(decide (0 < (jsTrim s.promptValue).length)) || true)
          simp
  | generateResolve o =>
      show BtnInv (if s.pendingRequests = 0 then s else handleGenerateResolve s o)
      split
      · exact h
      · show BtnInv (setLoading _ false)
        unfold setLoading
        split
        · simp_all
        · exact btnInv_updateGenerateButton _
  | newGenerationClick => exact btnInv_updateGenerateButton _

lemma btnInv_run (es : List Event) (s : AppState) (h : BtnInv s) : BtnInv (runEvents s es) := by
  induction es generalizing s with
  | nil => exact h
  | cons e es ih => exact ih (stepEvent s e) (btnInv_step s e h)

lemma btnInv_init : BtnInv initState := by
  show initState.generateBtnDisabled = _
  decide

lemma length_pos_iff_ne_empty (t : String) : (0 < t.length) ↔ t ≠ "" := by
  rw [Nat.pos_iff_ne_zero]
  constructor
  · intro h hs
    exact h (by simp [hs])
  · intro h hl
    apply h
    cases ht : t with
    | mk data => rw [ht] at hl; simpa [String.length, String.ext_iff, List.length_eq_zero] using hl

/-- C1: in every reachable page state, the generate trigger control is
enabled (not disabled) if and only if the prompt, after trimming, is
non-empty and no generation is marked in flight (`isGenerating`). -/
theorem C1_trigger_enabled_iff (s : AppState) (h : Reachable s) :
    s.generateBtnDisabled = false ↔ (jsTrim s.promptValue ≠ "" ∧ s.isGenerating = false) := by
  obtain ⟨es, rfl⟩ := h
  have hinv : BtnInv (runEvents initState es) := btnInv_run es initState btnInv_init
  rw [BtnInv] at hinv
  rw [hinv]
  rw [← length_pos_iff_ne_empty]
  cases hd : decide (0 < (jsTrim (runEvents initState es).promptValue).length) <;>
    cases hg : (runEvents initState es).isGenerating <;>
      simp_all

/-- C1 at a concrete reachable state: the initial page state. -/
theorem C1_trigger_enabled_iff_witness :
    initState.generateBtnDisabled = false ↔
      (jsTrim initState.promptValue ≠ "" ∧ initState.isGenerating = false) :=
  C1_trigger_enabled_iff initState ⟨[], rfl⟩

/-! ### Outstanding-request accounting (claim C2) -/

/-- The busy flag accounts exactly for the outstanding requests: one
request pending when `isGenerating`, none otherwise. -/
def PendInv (s : AppState) : Prop :=
  s.pendingRequests = (if s.isGenerating then 1 else 0)

lemma addFiles_pendingRequests (s : AppState) (files : List JFile) :
    (addFiles s files).pendingRequests = s.pendingRequests := by
  simp only [addFiles]
  split <;> rfl

lemma addFiles_isGenerating (s : AppState) (files : List JFile) :
    (addFiles s files).isGenerating = s.isGenerating := by
  simp only [addFiles]
  split <;> rfl

lemma handleGenerateResolve_pendingRequests (s : AppState) (o : FetchOutcome) :
    (handleGenerateResolve s o).pendingRequests = s.pendingRequests - 1 := by
  cases o with
  | networkError m => rfl
  | response ok success image detail =>
      simp only [handleGenerateResolve]
      split
      · rfl
      · split <;> rfl

lemma handleGenerateResolve_isGenerating (s : AppState) (o : FetchOutcome) :
    (handleGenerateResolve s o).isGenerating = false := by
  cases o with
  | networkError m => rfl
  | response ok success image detail =>
      simp only [handleGenerateResolve]
      split
      · rfl
      · split <;> rfl

lemma pendInv_step (s : AppState) (e : Event) (h : PendInv s)
    (hreset : e = Event.newGenerationClick → s.pendingRequests = 0) :
    PendInv (stepEvent s e) := by
  cases e with
  | promptInput v => exact h
  | aspectChange v => exact h
  | addFilesEvent files =>
      show PendInv (addFiles s files)
      unfold PendInv
      rw [addFiles_pendingRequests, addFiles_isGenerating]
      exact h
  | removeFileEvent i => exact h
  | generateClick =>
      show PendInv (handleGenerateStart s)
      simp only [handleGenerateStart]
      split
      · exact h
      · split
        · exact h
        · rename_i hg
          have hg' : s.isGenerating = false := by simpa using hg
          unfold PendInv at h
          rw [hg'] at h
          show s.pendingRequests + 1 = (if true then 1 else 0)
          simp at h
          simp [h]
  | generateResolve o =>
      show PendInv (if s.pendingRequests = 0 then s else handleGenerateResolve s o)
      split
      · exact h
      · rename_i hne
        unfold PendInv
        rw [handleGenerateResolve_pendingRequests, handleGenerateResolve_isGenerating]
        unfold PendInv at h
        cases hg : s.isGenerating <;> rw [hg] at h <;> simp at h ⊢ <;> omega
  | newGenerationClick =>
      have h0 : s.pendingRequests = 0 := hreset rfl
      show PendInv (handleNewGeneration s)
      show s.pendingRequests = (if false then 1 else 0)
      simpa using h0

/-- Whether delivering event `e` in state `s` keeps to the restriction
of the amended claim: the new-generation (reset) control is only
activated while no generation request is outstanding. -/
def eventSafeNow (s : AppState) : Event → Bool
  | Event.newGenerationClick => s.pendingRequests == 0
  | _ => true

/-- A trace in which the new-generation (reset) control is never
activated while a generation request is outstanding. -/
def safeTrace (s : AppState) : List Event → Bool
  | [] => true
  | e :: es => eventSafeNow s e && safeTrace (stepEvent s e) es

lemma pendInv_runSafe (es : List Event) (s : AppState) (h : PendInv s)
    (hsafe : safeTrace s es = true) : PendInv (runEvents s es) := by
  induction es generalizing s with
  | nil => exact h
  | cons e es ih =>
      rw [safeTrace, Bool.and_eq_true] at hsafe
      refine ih (stepEvent s e) (pendInv_step s e h ?_) hsafe.2
      intro he
      subst he
      simpa [eventSafeNow] using hsafe.1

/-- C2 (amended): along every event sequence that does not activate the
new-generation control while a request is outstanding, at most one
generation request is ever outstanding. -/
theorem C2_amended_single_request (es : List Event)
    (hsafe : safeTrace initState es = true) :
    (runEvents initState es).pendingRequests ≤ 1 := by
  have h : PendInv (runEvents initState es) :=
    pendInv_runSafe es initState rfl hsafe
  unfold PendInv at h
  rw [h]
  split <;> simp

/-- C2 amended theorem at a concrete trace: one generation issued and
not yet settled. -/
theorem C2_amended_single_request_witness :
    safeTrace initState [Event.promptInput "hi", Event.generateClick] = true ∧
      (runEvents initState [Event.promptInput "hi", Event.generateClick]).pendingRequests ≤ 1 :=
  ⟨by decide, C2_amended_single_request _ (by decide)⟩

/-- C2 as stated is false: activating the new-generation control while a
request is in flight resets the busy flag (`isGenerating = false` in
`handleNewGeneration`), after which a second generate click passes the
re-entrancy guard, so two generation requests are outstanding at once in
a reachable state. -/
theorem C2_counterexample :
    Reachable (runEvents initState
      [Event.promptInput "hi", Event.generateClick, Event.newGenerationClick,
       Event.promptInput "hi", Event.generateClick]) ∧
      (runEvents initState
        [Event.promptInput "hi", Event.generateClick, Event.newGenerationClick,
         Event.promptInput "hi", Event.generateClick]).pendingRequests = 2 :=
  ⟨⟨_, rfl⟩, by decide⟩

/-! ### Attachment capacity (claims C3, C8, C10) -/

lemma addFiles_uploadedFiles (s : AppState) (files : List JFile) :
    (addFiles s files).uploadedFiles
      = s.uploadedFiles ++ files.take (MAX_FILES - s.uploadedFiles.length) := by
  simp only [addFiles]
  split <;> rfl

lemma addFiles_length_le (s : AppState) (files : List JFile)
    (h : s.uploadedFiles.length ≤ MAX_FILES) :
    (addFiles s files).uploadedFiles.length ≤ MAX_FILES := by
  rw [addFiles_uploadedFiles, List.length_append, List.length_take]
  unfold MAX_FILES at *
  omega

/-- C3: after any finite sequence of `addFiles` calls the attachment
count never exceeds 14; and (as long as the collection respects the
bound, which every reachable collection does) one `addFiles` call
appends exactly the input truncated to the remaining capacity, dropping
the excess — the operation is total. -/
theorem C3_capacity_bound :
    (∀ batches : List (List JFile),
        (batches.foldl addFiles initState).uploadedFiles.length ≤ MAX_FILES)
    ∧ (∀ (s : AppState) (files : List JFile), s.uploadedFiles.length ≤ MAX_FILES →
        (addFiles s files).uploadedFiles
            = s.uploadedFiles ++ files.take (MAX_FILES - s.uploadedFiles.length)
          ∧ (addFiles s files).uploadedFiles.length ≤ MAX_FILES) := by
  constructor
  · intro batches
    have hgen : ∀ (bs : List (List JFile)) (s : AppState), s.uploadedFiles.length ≤ MAX_FILES →
        (bs.foldl addFiles s).uploadedFiles.length ≤ MAX_FILES := by
      intro bs
      induction bs with
      | nil => intro s hs; exact hs
      | cons b bs ih => intro s hs; exact ih (addFiles s b) (addFiles_length_le s b hs)
    exact hgen batches initState (by decide)
  · intro s files h
    exact ⟨addFiles_uploadedFiles s files, addFiles_length_le s files h⟩

/-- C3 at a concrete input: adding one file to the empty collection
keeps exactly that file. -/
theorem C3_capacity_bound_witness :
    (addFiles initState [⟨"a", "image/png"⟩]).uploadedFiles = [⟨"a", "image/png"⟩] := by
  have h := (C3_capacity_bound.2 initState [⟨"a", "image/png"⟩] (by decide)).1
  rw [h]
  decide

/-- A list of `n` pairwise distinct image files. -/
def demoFiles (n : Nat) : List JFile :=
  (List.range n).map (fun i => ⟨String.mk (List.replicate i 'a'), "image/png"⟩)

/-- C8: adding 15 image files to the empty collection retains exactly
the first 14 — but, contrary to the claim, the capacity notice is NOT
visible when the operation completes: `addFiles` calls `showError(...)`
and then unconditionally ends with `hideError()`, which hides the notice
and clears its text again. -/
theorem C8_fifteen_files_divergence :
    (addFiles initState (demoFiles 15)).uploadedFiles = (demoFiles 15).take 14
    ∧ (addFiles initState (demoFiles 15)).uploadedFiles.length = 14
    ∧ (addFiles initState (demoFiles 15)).errorMessageHidden = true
    ∧ (addFiles initState (demoFiles 15)).errorText = "" := by
  decide

/-- C10: every `addFiles` call — whatever the state it runs in and
whatever the input, including inputs that trigger the capacity notice
and the empty input — returns with the error surface hidden and the
error text empty, because its final statement is `hideError()`. -/
theorem C10_add_clears_error (s : AppState) (files : List JFile) :
    (addFiles s files).errorMessageHidden = true ∧ (addFiles s files).errorText = "" :=
  ⟨rfl, rfl⟩

/-! ### Re-entrancy of generate (claim C4) -/

/-- C4 as stated is false: `handleGenerate` checks the empty-prompt
validation BEFORE the `isGenerating` re-entrancy guard, so invoking it
while a request is in flight after the prompt has been emptied shows the
validation error — observable state changes (the request count still
does not). -/
theorem C4_counterexample :
    (runEvents initState
      [Event.promptInput "hi", Event.generateClick, Event.promptInput ""]).isGenerating = true
    ∧ handleGenerateStart (runEvents initState
        [Event.promptInput "hi", Event.generateClick, Event.promptInput ""])
      ≠ runEvents initState
          [Event.promptInput "hi", Event.generateClick, Event.promptInput ""] := by
  exact ⟨by decide, by decide⟩

/-- C4 (amended): invoking generate while a generation is in flight
issues no additional request, and with a non-empty trimmed prompt it is
a strict no-op; with an empty trimmed prompt its only effect is showing
the empty-prompt validation message, because the emptiness check runs
before the in-flight guard. -/
theorem C4_amended_reentrancy (s : AppState) (h : s.isGenerating = true) :
    (handleGenerateStart s).pendingRequests = s.pendingRequests
    ∧ (jsTrim s.promptValue ≠ "" → handleGenerateStart s = s)
    ∧ (jsTrim s.promptValue = "" →
        handleGenerateStart s = showError s "Please enter a prompt to generate an image.") := by
  have hs : handleGenerateStart s
      = if jsTrim s.promptValue = ""
        then showError s "Please enter a prompt to generate an image." else s := by
    simp only [handleGenerateStart, h]
    split
    · rfl
    · simp
  rw [hs]
  refine ⟨?_, ?_, ?_⟩
  · split <;> rfl
  · intro hp; rw [if_neg hp]
  · intro hp; rw [if_pos hp]

/-- C4 amended theorem at a concrete input: a second generate click
while in flight with the prompt still non-empty changes nothing. -/
theorem C4_amended_reentrancy_witness :
    handleGenerateStart (runEvents initState [Event.promptInput "hi", Event.generateClick])
      = runEvents initState [Event.promptInput "hi", Event.generateClick] :=
  (C4_amended_reentrancy _ (by decide)).2.1 (by decide)

/-! ### Cleanup on completion (claim C6) -/

lemma handleGenerateResolve_promptValue (s : AppState) (o : FetchOutcome) :
    (handleGenerateResolve s o).promptValue = s.promptValue := by
  cases o with
  | networkError m => rfl
  | response ok success image detail =>
      simp only [handleGenerateResolve]
      split
      · rfl
      · split <;> rfl

lemma handleGenerateResolve_generateBtnDisabled (s : AppState) (o : FetchOutcome) :
    (handleGenerateResolve s o).generateBtnDisabled
      = !(decide (0 < (jsTrim s.promptValue).length)) := by
  cases o with
  | networkError m =>
      show (!(decide (0 < (jsTrim s.promptValue).length)) || false) = _
      simp
  | response ok success image detail =>
      simp only [handleGenerateResolve]
      split
      · show (!(decide (0 < (jsTrim s.promptValue).length)) || false) = _
        simp
      · split <;>
          · show (!(decide (0 < (jsTrim s.promptValue).length)) || false) = _
            simp

/-- C6: whatever the outcome of a generation request — success, backend
failure, malformed response or network failure — the continuation clears
the busy flag, leaves the prompt alone, and afterwards the trigger
control is enabled exactly when the trimmed prompt is non-empty; no
outcome leaves the control permanently disabled. -/
theorem C6_busy_cleared (s : AppState) (o : FetchOutcome) :
    (handleGenerateResolve s o).isGenerating = false
    ∧ (handleGenerateResolve s o).promptValue = s.promptValue
    ∧ ((handleGenerateResolve s o).generateBtnDisabled = false ↔ jsTrim s.promptValue ≠ "") := by
  refine ⟨handleGenerateResolve_isGenerating s o, handleGenerateResolve_promptValue s o, ?_⟩
  rw [handleGenerateResolve_generateBtnDisabled, ← length_pos_iff_ne_empty]
  cases hd : decide (0 < (jsTrim s.promptValue).length) <;> simp_all

/-! ### Response handling (claim C5) -/

lemma jsOr_ne_empty (x fb : String) (h : fb ≠ "") : jsOr x fb ≠ "" := by
  unfold jsOr
  split
  · exact h
  · assumption

/-- C5 as stated is false for one reachable response shape: a 2xx
response with `success:false` and a `detail` string present yields the
fixed message `"No image was generated"`, not the detail —
`handleGenerate` consults `data.detail` only on non-2xx responses. -/
theorem C5_counterexample :
    Reachable (runEvents initState [Event.promptInput "hi", Event.generateClick])
    ∧ (handleGenerateResolve (runEvents initState [Event.promptInput "hi", Event.generateClick])
        (FetchOutcome.response true false none (some "quota exceeded"))).errorText
        = "No image was generated"
    ∧ (handleGenerateResolve (runEvents initState [Event.promptInput "hi", Event.generateClick])
        (FetchOutcome.response true false none (some "quota exceeded"))).errorText
        ≠ "quota exceeded" :=
  ⟨⟨_, rfl⟩, by decide, by decide⟩

/-- C5 (amended): a 2xx response with `success:true` and a non-empty
`image` makes the result surface visible and stores the image.  Every
other outcome shows a non-empty error message: equal to the `detail`
string exactly for non-2xx responses carrying a non-empty detail, the
fallback `"Failed to generate image"` for the remaining non-2xx
responses, the fixed `"No image was generated"` for 2xx responses
without success or image (even when a detail is present), and the
rejection's message (or a generic fallback when that is empty) for
network/parse failures. -/
theorem C5_amended_response_handling (s : AppState) (ok success : Bool)
    (image detail : Option String) (d m : String) :
    (ok = true → success = true → jsTruthy image = true →
      (handleGenerateResolve s (FetchOutcome.response ok success image detail)).resultSectionHidden
          = false
        ∧ (handleGenerateResolve s (FetchOutcome.response ok success image detail)).resultImageSrc
          = image.getD "")
    ∧ (ok = false → detail = some d → d ≠ "" →
        (handleGenerateResolve s (FetchOutcome.response ok success image detail)).errorText = d)
    ∧ (ok = false → (detail = none ∨ detail = some "") →
        (handleGenerateResolve s (FetchOutcome.response ok success image detail)).errorText
          = "Failed to generate image")
    ∧ (ok = true → (success = false ∨ jsTruthy image = false) →
        (handleGenerateResolve s (FetchOutcome.response ok success image detail)).errorText
          = "No image was generated")
    ∧ ((ok = false ∨ success = false ∨ jsTruthy image = false) →
        (handleGenerateResolve s (FetchOutcome.response ok success image detail)).errorMessageHidden
            = false
          ∧ (handleGenerateResolve s (FetchOutcome.response ok success image detail)).errorText
            ≠ "")
    ∧ ((handleGenerateResolve s (FetchOutcome.networkError m)).errorMessageHidden = false
        ∧ (handleGenerateResolve s (FetchOutcome.networkError m)).errorText ≠ "") := by
  refine ⟨?_, ?_, ?_, ?_, ?_, ?_, ?_⟩
  · intro hok hsucc himg
    subst hok; subst hsucc
    simp [handleGenerateResolve, setLoading, updateGenerateButton, himg]
  · intro hok hdet hd
    subst hok; subst hdet
    simp [handleGenerateResolve, setLoading, updateGenerateButton, showError, jsOr, jsOrElse, hd]
  · intro hok hdet
    subst hok
    rcases hdet with h | h <;> subst h <;> rfl
  · intro hok hfail
    subst hok
    rcases hfail with h | h
    · subst h; rfl
    · simp [handleGenerateResolve, setLoading, updateGenerateButton, showError, jsOr, h]
  · intro hfail
    cases hok : ok with
    | false =>
        exact ⟨rfl, jsOr_ne_empty _ _ (by decide)⟩
    | true =>
        subst hok
        have hfail' : success = false ∨ jsTruthy image = false := by
          rcases hfail with h | h | h
          · exact absurd h (by simp)
          · exact Or.inl h
          · exact Or.inr h
        rcases hfail' with h | h
        · subst h
          refine ⟨rfl, ?_⟩
          show jsOr "No image was generated"
              "An error occurred while generating the image." ≠ ""
          exact jsOr_ne_empty _ _ (by decide)
        · refine ⟨?_, ?_⟩ <;> simp [handleGenerateResolve, setLoading, updateGenerateButton, showError, jsOr, h]
  · rfl
  · exact jsOr_ne_empty _ _ (by decide)

/-- C5 amended theorem at a concrete input: HTTP 500 with detail
`"quota exceeded"` shows exactly `"quota exceeded"`. -/
theorem C5_amended_response_handling_witness :
    (handleGenerateResolve initState
        (FetchOutcome.response false false none (some "quota exceeded"))).errorText
      = "quota exceeded" :=
  (C5_amended_response_handling initState false false none (some "quota exceeded")
      "quota exceeded" "").2.1 rfl rfl (by decide)

/-! ### Preview grid rebuild and decode order (claims C7, C9) -/

/-- The grid rebuild: `rebuildPreviewGrid()` (and equally the `forEach` in `addFiles`)
calls `createPreviewItem(file, index)` for each attachment with its
position: the pending decode jobs, in attachment order, each carrying
the index assigned at creation time. -/
def rebuildPreviewJobs (files : List JFile) : List (Nat × JFile) :=
  files.enum

/-- The rendered grid: `createPreviewItem` appends its item to the grid inside
`reader.onload`, i.e. when that file's decode completes.  Given the
order in which the pending decodes complete (as positions into the job
list), this is the grid's final content in rendered order. -/
def previewGridAfterDecodes (files : List JFile) (order : List Nat) : List (Nat × JFile) :=
  order.filterMap (fun i => (rebuildPreviewJobs files).get? i)

lemma range_filterMap_get? {α : Type} (l : List α) :
    (List.range l.length).filterMap (fun i => l.get? i) = l := by
  induction l with
  | nil => rfl
  | cons a t ih =>
      rw [List.length_cons, List.range_succ_eq_map, List.filterMap_cons]
      simp only [List.get?_cons_zero, List.filterMap_map]
      have hc : ((fun i => (a :: t).get? i) ∘ Nat.succ) = fun i => t.get? i := by
        funext i
        rfl
      rw [hc, ih]

lemma enum_length_eq (files : List JFile) :
    files.length = (rebuildPreviewJobs files).length := by
  unfold rebuildPreviewJobs
  rw [List.enum_length]

/-- C7: removing a valid index keeps the remaining attachments in their
original relative order (`take i ++ drop (i+1)`), shrinks the count by
one, and the rebuilt preview jobs carry exactly the contiguous indices
`0 .. count-2` (no gaps, no duplicates) paired with the attachments in
order. -/
theorem C7_remove_contiguous (s : AppState) (i : Nat) (h : i < s.uploadedFiles.length) :
    (removeFile s i).uploadedFiles = s.uploadedFiles.take i ++ s.uploadedFiles.drop (i + 1)
    ∧ (removeFile s i).uploadedFiles.length = s.uploadedFiles.length - 1
    ∧ (rebuildPreviewJobs (removeFile s i).uploadedFiles).map Prod.fst
        = List.range (s.uploadedFiles.length - 1)
    ∧ (rebuildPreviewJobs (removeFile s i).uploadedFiles).map Prod.snd
        = (removeFile s i).uploadedFiles := by
  have hu : (removeFile s i).uploadedFiles = s.uploadedFiles.eraseIdx i := rfl
  have hlen : (s.uploadedFiles.eraseIdx i).length = s.uploadedFiles.length - 1 :=
    List.length_eraseIdx_of_lt h
  refine ⟨?_, ?_, ?_, ?_⟩
  · rw [hu, List.eraseIdx_eq_take_drop_succ]
  · rw [hu, hlen]
  · rw [hu]
    unfold rebuildPreviewJobs
    rw [List.enum_map_fst, hlen]
  · unfold rebuildPreviewJobs
    rw [List.enum_map_snd]

/-- C7 at a concrete input: removing index 1 of three attachments keeps
the first and third, in order. -/
theorem C7_remove_contiguous_witness :
    (removeFile { initState with
        uploadedFiles := [⟨"a", "image/png"⟩, ⟨"b", "image/png"⟩, ⟨"c", "image/png"⟩] }
      1).uploadedFiles = [⟨"a", "image/png"⟩, ⟨"c", "image/png"⟩] := by
  have h := (C7_remove_contiguous { initState with
      uploadedFiles := [⟨"a", "image/png"⟩, ⟨"b", "image/png"⟩, ⟨"c", "image/png"⟩] }
    1 (by decide)).1
  rw [h]
  decide

/-- C9 as stated is false: items are appended to the grid when their
decode completes, so when the decodes of two attachments complete in the
opposite order the rendered order is the completion order, not the
attachment order. -/
theorem C9_counterexample :
    ([1, 0] : List Nat).Perm (List.range 2)
    ∧ (previewGridAfterDecodes [⟨"a", "image/png"⟩, ⟨"b", "image/png"⟩] [1, 0]).map Prod.snd
      ≠ [⟨"a", "image/png"⟩, ⟨"b", "image/png"⟩] := by
  exact ⟨by decide, by decide⟩

/-- C9 (amended): whatever the completion order (a permutation of the
pending decodes), the rendered grid holds exactly the attachments with
their add-time indices — no item is lost or corrupted — in the DECODE
COMPLETION order; the rendered order equals the attachment order when
the decodes complete in attachment order. -/
theorem C9_amended_decode_order (files : List JFile) (order : List Nat)
    (h : order.Perm (List.range files.length)) :
    (previewGridAfterDecodes files order).Perm (rebuildPreviewJobs files)
    ∧ (order = List.range files.length →
        previewGridAfterDecodes files order = rebuildPreviewJobs files) := by
  have hin : previewGridAfterDecodes files (List.range files.length)
      = rebuildPreviewJobs files := by
    unfold previewGridAfterDecodes
    rw [enum_length_eq, range_filterMap_get?]
  constructor
  · have h2 := h.filterMap (fun i => (rebuildPreviewJobs files).get? i)
    calc (previewGridAfterDecodes files order).Perm
          ((List.range files.length).filterMap (fun i => (rebuildPreviewJobs files).get? i)) :=
        h2
      _ = rebuildPreviewJobs files := hin
  · intro ho
    rw [ho, hin]

/-- C9 amended theorem at a concrete input: out-of-order completion
still renders both attachments with their original indices. -/
theorem C9_amended_decode_order_witness :
    (previewGridAfterDecodes [⟨"a", "image/png"⟩, ⟨"b", "image/png"⟩] [1, 0]).Perm
      (rebuildPreviewJobs [⟨"a", "image/png"⟩, ⟨"b", "image/png"⟩]) :=
  (C9_amended_decode_order [⟨"a", "image/png"⟩, ⟨"b", "image/png"⟩] [1, 0] (by decide)).1
